import Mathlib

/-!
Verification development for the smapi repository (a Python 2 client library
for the SmarterMail admin web services and the Zoho REST API).

The Python sources are shallowly embedded below.  Stateful HTTP calls are
modeled by passing the observable outcome of the network round trip (status
code, decoded body) as explicit inputs; raised Python exceptions are modeled
by an explicit exception type.  Python truthiness, dict semantics and the
attribute/class-variable semantics relevant to the sources are modeled
explicitly where the code depends on them.
-/

set_option maxRecDepth 8000

namespace Smapi

/-! ### Python dicts as insertion-ordered association lists -/

abbrev Dict (β : Type) := List (String × β)

/-- d[k] lookup returning an Option (dict.get semantics). -/
def dget {β : Type} : Dict β → String → Option β
  | [], _ => none
  | (k0, v) :: rest, k => if k0 = k then some v else dget rest k

/-- d[k] = v assignment: overwrite in place, else append (Python dict order). -/
def dset {β : Type} : Dict β → String → β → Dict β
  | [], k, v => [(k, v)]
  | (k0, v0) :: rest, k, v =>
    if k0 = k then (k0, v) :: rest else (k0, v0) :: dset rest k v

/-- d.update(e) semantics. -/
def dUpdate {β : Type} (d e : Dict β) : Dict β :=
  e.foldl (fun acc kv => dset acc kv.1 kv.2) d

/-- dict(pairs) semantics: later pairs overwrite earlier ones. -/
def dFromPairs {β : Type} (ps : List (String × β)) : Dict β :=
  dUpdate [] ps

theorem dget_dset_same {β : Type} (d : Dict β) (k : String) (v : β) :
    dget (dset d k v) k = some v := by
  induction d with
  | nil => simp [dget, dset]
  | cons head tail ih =>
    obtain ⟨k0, v0⟩ := head
    by_cases hk : k0 = k
    · simp [dget, dset, hk]
    · simp [dget, dset, hk, ih]

theorem dget_dset_other {β : Type} (d : Dict β) (k k2 : String) (v : β) (h : k ≠ k2) :
    dget (dset d k v) k2 = dget d k2 := by
  induction d with
  | nil => simp [dget, dset, h]
  | cons head tail ih =>
    obtain ⟨k0, v0⟩ := head
    by_cases hk : k0 = k
    · subst hk
      simp [dget, dset, h]
    · by_cases hk2 : k0 = k2
      · simp [dget, dset, hk, hk2, Ne.symm h]
      · simp [dget, dset, hk, hk2, ih]

/-! ### Exceptions (exc.py) and requests.Response truthiness -/

/-- bool(resp) for a requests.Response is resp.ok, which is False exactly when
400 <= status_code < 600 (Response.__nonzero__ / raise_for_status). -/
def respTruthy (status : Nat) : Bool :=
  if 400 ≤ status ∧ status < 600 then false else true

def optRespTruthy : Option Nat → Bool
  | none => false
  | some st => respTruthy st

/-- The observable content of a successfully constructed ZohoError: its message
and the attached requests.Response (identified by its status code), as stored
into the class-level _options dict at exc.py line 124. -/
structure ZohoErrorObj where
  message : String
  http_response : Option Nat
deriving DecidableEq

/-- Python exceptions that the embedded code can raise. -/
inductive PyExc where
  | zoho (e : ZohoErrorObj)
  | smapi (message : String)
  | typeError (message : String)
  | nameError (message : String)
  | attributeError (name : String)
  | keyError (key : String)
deriving DecidableEq

/-- ZohoError.__init__ (exc.py 108-124).  Responses are identified by status
code; dump_objs values likewise.  Line 122 evaluates
`not http_response and ('http_response' in dump_objs)`: when http_response is
absent or falsy and dump_objs is None, the membership test raises TypeError. -/
def mkZohoError (message : String) (dump_objs : Option (Dict Nat))
    (http_response : Option Nat) : Except PyExc ZohoErrorObj :=
  if optRespTruthy http_response then .ok ⟨message, http_response⟩
  else
    match dump_objs with
    | none => .error (.typeError "argument of type NoneType is not iterable")
    | some d =>
      match dget d "http_response" with
      | some r => .ok ⟨message, some r⟩
      | none => .ok ⟨message, http_response⟩

/-- ZohoAPI._log with throw_exception=True and exception=None (zoho.py 69-78):
raises ZohoError(error_message, **exception_args).  args_http is the
http_response entry of exception_args, when present; dump_objs is never
forwarded.  The result is the exception that actually escapes: the intended
ZohoError, or the TypeError raised inside ZohoError.__init__. -/
def zoho_raise (message : String) (args_http : Option Nat) : PyExc :=
  match mkZohoError message none args_http with
  | .ok e => .zoho e
  | .error t => t

/-! ### Decoded JSON values and Python truthiness -/

inductive JValue where
  | jnull
  | jbool (b : Bool)
  | jnum (n : Int)
  | jstr (s : String)
  | jarr (elems : List JValue)
  | jobj (fields : List (String × JValue))

def JValue.truthy : JValue → Bool
  | .jnull => false
  | .jbool b => b
  | .jnum n => n != 0
  | .jstr s => !s.isEmpty
  | .jarr elems => !elems.isEmpty
  | .jobj fields => !fields.isEmpty

def optJTruthy : Option JValue → Bool
  | none => false
  | some v => v.truthy

/-- Python equality of a decoded JSON value against a str literal. -/
def jvalEqStr : JValue → String → Bool
  | .jstr t, s => t == s
  | _, _ => false

/-! ### String helpers (substring test, splitting) -/

def lcStartsWith : List Char → List Char → Bool
  | [], _ => true
  | _ :: _, [] => false
  | a :: as, b :: bs => a == b && lcStartsWith as bs

def lcContains (needle : List Char) : List Char → Bool
  | [] => needle.isEmpty
  | c :: rest => lcStartsWith needle (c :: rest) || lcContains needle rest

/-- Python `sub in s` on strings. -/
def strContains (needle hay : String) : Bool :=
  lcContains needle.data hay.data

/-- str.split(c) semantics on a character list. -/
def splitOnChar (c : Char) : List Char → List (List Char)
  | [] => [[]]
  | x :: rest =>
    let r := splitOnChar c rest
    if x == c then [] :: r
    else
      match r with
      | [] => [[x]]
      | h :: t => (x :: h) :: t

/-! ### ZohoAPI.fetch_token (zoho.py 81-149) -/

def SCOPES : Dict String := [("mail", "ZohoMail/ZohoMailAPI"), ("crm", "ZohoCRM/crmapi")]

def isWordChar (c : Char) : Bool := c.isAlpha || c.isDigit || c == '_'

/-- re.match on the anchored pattern Zoho\w+/\w+ (zoho.py line 86/158). -/
def scopeShaped (s : String) : Bool :=
  s.startsWith "Zoho" &&
  (match (s.drop 4).splitOn "/" with
   | [a, b] => !a.isEmpty && !b.isEmpty && a.data.all isWordChar && b.data.all isWordChar
   | _ => false)

/-- Scope resolution, zoho.py 85-95 (textually repeated in _get_scope, 151-169),
with use_exceptions=True.  An unknown short name raises via _log with no
exception_args, which makes ZohoError.__init__ raise TypeError. -/
def zoho_resolve_scope (scope_name : Option String) : Except PyExc String :=
  match scope_name with
  | none => .ok "ZohoMail/ZohoMailAPI"
  | some sn =>
    if sn.isEmpty then .ok "ZohoMail/ZohoMailAPI"
    else if scopeShaped sn then .ok sn
    else
      match dget SCOPES sn.toLower with
      | some sc => .ok sc
      | none => .error (zoho_raise ("Invalid scope_name: " ++ sn.toLower) none)

/-- The decoding outcome of resp.json() in fetch_token: either a decoded JSON
value, or a JSONDecodeError, in which case the raw body text is reparsed as
newline-delimited KEY=VALUE lines (zoho.py 124-136). -/
inductive TokenBody where
  | json (j : JValue)
  | kvText (content : String)

/-- One line of the fallback parse, re.findall with the multiline pattern
(?!#)(key.*)=(value.*): lines starting with # are skipped, a line without =
does not match, and the greedy key group splits at the last =. -/
def kvLineParse (line : List Char) : Option (String × String) :=
  match line with
  | '#' :: _ => none
  | _ =>
    match (splitOnChar '=' line).reverse with
    | [] => none
    | [_] => none
    | v :: rest => some (String.mk (List.intercalate ['='] rest.reverse), String.mk v)

/-- The ordered key/value matches of the fallback regex over the body text. -/
def kvPairs (content : String) : List (String × String) :=
  (splitOnChar '\n' content.data).filterMap kvLineParse

/-- The check at zoho.py line 118/131 on a decoded field mapping:
RESULT not in ents or ents[RESULT] != TRUE. -/
def resultNotTrue (fields : List (String × JValue)) : Bool :=
  match dget fields "RESULT" with
  | none => true
  | some v => !(jvalEqStr v "TRUE")

def kvResultNotTrue (ents : Dict String) : Bool :=
  match dget ents "RESULT" with
  | none => true
  | some v => v != "TRUE"

/-- The JSON tier of fetch_token (zoho.py 111-123), entered when resp.json()
succeeded.  Non-dict decoded values follow Python `in`/indexing semantics. -/
def fetch_token_json_tier (status : Nat) (j : JValue) : Except PyExc (Option JValue) :=
  if !j.truthy then
    .error (zoho_raise "Unable to fetch API token, invalid response" (some status))
  else
    match j with
    | .jobj fields =>
      if resultNotTrue fields then
        .error (zoho_raise "Invalid AUTHTOKEN response" (some status))
      else .ok (dget fields "AUTHTOKEN")
    | .jarr elems =>
      if elems.any (fun e => jvalEqStr e "RESULT") then
        .error (.typeError "list indices must be integers")
      else .error (zoho_raise "Invalid AUTHTOKEN response" (some status))
    | .jstr s =>
      if strContains "RESULT" s then
        .error (.typeError "string indices must be integers")
      else .error (zoho_raise "Invalid AUTHTOKEN response" (some status))
    | _ => .error (.typeError "argument of type is not iterable")

/-- The KEY=VALUE fallback tier of fetch_token (zoho.py 124-136), entered only
when resp.json() raised JSONDecodeError. -/
def fetch_token_kv_tier (status : Nat) (content : String) : Except PyExc (Option JValue) :=
  let ents := dFromPairs (kvPairs content)
  if ents.isEmpty then
    .error (zoho_raise "Unable to fetch API token, invalid response" (some status))
  else if kvResultNotTrue ents then
    .error (zoho_raise "Invalid AUTHTOKEN response" (some status))
  else .ok ((dget ents "AUTHTOKEN").map JValue.jstr)

/-- ZohoAPI.fetch_token (zoho.py 81-149) over the outcome of the token request,
with use_exceptions=True (the default).  status is the HTTP status code of the
response, body the decoding outcome of its content.  The Except value is the
value returned by the Python function (the AUTHTOKEN field, which may be
absent: lines 123/136 return ents.get with default None) or the exception that
escapes.  Note bool(resp) at line 101 is respTruthy. -/
def fetch_token (scope_name : Option String) (status : Nat) (body : TokenBody) :
    Except PyExc (Option JValue) :=
  match zoho_resolve_scope scope_name with
  | .error e => .error e
  | .ok _scope =>
    if !(respTruthy status) then
      .error (zoho_raise "No response from API token request" (some status))
    else if status != 200 then
      .error (zoho_raise "HTTP Error" (some status))
    else
      match body with
      | .json j => fetch_token_json_tier status j
      | .kvText content => fetch_token_kv_tier status content

/-! ### ZohoAPI._call_zoho (zoho.py 194-260) -/

def HTTP_METHODS : List String := ["GET", "POST", "PUT", "DELETE"]

/-- method.upper() (zoho.py line 195) for ASCII method names. -/
def pyUpper (s : String) : String := String.mk (s.data.map Char.toUpper)

/-- Inside the try block of _call_zoho, any raised exception other than
JSONDecodeError is matched against `except RequestException` (zoho.py 245);
that name is unbound in the module, so the matching itself raises NameError. -/
def nameErrorRequestException : PyExc :=
  .nameError "global name RequestException is not defined"

inductive ZCallResult where
  | ret (res : Option JValue) (warned : Bool)
  | raised (e : PyExc)

/-- ZohoAPI._call_zoho with use_exceptions=True (the default).  status is the
HTTP status code, body the outcome of resp.json() (none modeling
JSONDecodeError).  ret carries the returned data value and whether the
non-fatal warning of lines 228-233 was logged. -/
def call_zoho (method : String) (status : Nat) (body : Option JValue) : ZCallResult :=
  let m := pyUpper method
  if !(HTTP_METHODS.contains m) then
    -- line 197: _log raises ZohoError with no exception_args, outside the try:
    -- ZohoError.__init__ line 122 raises TypeError
    .raised (zoho_raise ("Invalid HTTP method: " ++ m) none)
  else if !(respTruthy status) then
    -- line 215 `if not resp` is True for 4xx/5xx: _log raises ZohoError with no
    -- exception_args, the TypeError is rethrown by the except scan as NameError
    .raised nameErrorRequestException
  else
    match body with
    | none =>
      -- resp.json() raised JSONDecodeError: caught at 241, reraised as ZohoError
      -- with http_response attached (resp is truthy here)
      .raised (zoho_raise "JSON Decoding Error" (some status))
    | some j =>
      if !j.truthy then
        -- line 220: _log with no exception_args inside the try: NameError
        .raised nameErrorRequestException
      else
        match j with
        | .jobj fields =>
          let res := dget fields "data"
          let resStatus := dget fields "status"
          if optJTruthy resStatus && status != 200 then
            if optJTruthy res then
              -- lines 229-233: warning logged, fall through and return data
              .ret res true
            else
              -- lines 234-240: ZohoError raised inside the try: NameError
              .raised nameErrorRequestException
          else if !(optJTruthy res) then
            -- line 257 sits after the with block: _log raises ZohoError with
            -- no exception_args: TypeError
            .raised (zoho_raise "No valid response from Zoho API" none)
          else .ret res false
        | _ =>
          -- res_json.get on a non-dict raises AttributeError inside the try:
          -- NameError
          .raised nameErrorRequestException

/-! ### SMAPI (base.py) -/

def SERVICES : List String :=
  ["DomainAdmin", "UserAdmin", "ProductInfo", "DomainAliasAdmin", "MailListAdmin",
   "AliasAdmin", "GlobalUpdate"]

/-- The per-instance _options dict written by SMAPI.__init__ (base.py 42-51). -/
structure SMOptions where
  server : String
  username : String
  password : String
  use_ssl : Bool
  port : Option Int
deriving DecidableEq

/-- The port constructor argument: a string or an int. -/
inductive PortArg where
  | pstr (s : String)
  | pint (n : Int)
deriving DecidableEq

def PortArg.truthy : PortArg → Bool
  | .pstr s => !s.isEmpty
  | .pint n => n != 0

def isPySpace (c : Char) : Bool :=
  c == ' ' || c == '\t' || c == '\n' || c == '\r'

def pyDigits (ds : List Char) : Option Nat :=
  if !ds.isEmpty && ds.all Char.isDigit then
    some (ds.foldl (fun a c => a * 10 + (c.toNat - 48)) 0)
  else none

/-- int(s) on a string: strip whitespace, optional sign, decimal digits;
anything else raises ValueError (modeled as none). -/
def pyStrToInt (s : String) : Option Int :=
  let cs := s.data.dropWhile isPySpace
  let cs2 := (cs.reverse.dropWhile isPySpace).reverse
  match cs2 with
  | '-' :: ds => (pyDigits ds).map (fun n => -(n : Int))
  | '+' :: ds => (pyDigits ds).map (fun n => (n : Int))
  | ds => (pyDigits ds).map (fun n => (n : Int))

/-- int(port) (base.py line 47). -/
def PortArg.toIntOpt : PortArg → Option Int
  | .pstr s => pyStrToInt s
  | .pint n => some n

/-- str(port), used in the error message of base.py line 49. -/
def PortArg.text : PortArg → String
  | .pstr s => s
  | .pint n => toString n

/-- SMAPI.__init__ (base.py 32-51).  Empty (falsy) server/username/password are
rejected; a truthy port is int()-converted, a ValueError becoming an
SMAPIError naming the port; a falsy or absent port is stored as None. -/
def smapi_init (server username password : String) (use_ssl : Bool)
    (port : Option PortArg) : Except PyExc SMOptions :=
  if server = "" then .error (.smapi "No server hostname provided")
  else if username = "" then .error (.smapi "No username provided")
  else if password = "" then .error (.smapi "No password provided")
  else
    match port with
    | some p =>
      if p.truthy then
        match p.toIntOpt with
        | some n => .ok ⟨server, username, password, use_ssl, some n⟩
        | none => .error (.smapi ("Invalid port provided: \"" ++ p.text ++ "\""))
      else .ok ⟨server, username, password, use_ssl, none⟩
    | none => .ok ⟨server, username, password, use_ssl, none⟩

/-- self.port (base.py 81-83): _get_option with default None, so a falsy stored
value (0) reads back as None. -/
def SMOptions.portProp (o : SMOptions) : Option Int :=
  match o.port with
  | some n => if n != 0 then some n else none
  | none => none

/-- SMAPI._get_service_url (base.py 85-99).  For a service name not in SERVICES,
line 87 evaluates the bare global name SERVICES, which is unbound in base.py
(the list is the class attribute self.SERVICES): NameError, raised before the
SMAPIError on line 88 and before any request. -/
def get_service_url (o : SMOptions) (srv_name method : String) : Except PyExc String :=
  if !(SERVICES.contains srv_name) then
    .error (.nameError "global name SERVICES is not defined")
  else
    let scheme := if o.use_ssl then "https" else "http"
    let base := scheme ++ "://" ++ o.server
    let base2 :=
      match o.portProp with
      | some n => base ++ ":" ++ toString n
      | none => base
    .ok (base2 ++ "/Services/svc" ++ srv_name ++ ".asmx/" ++ method)

/-- The request SMAPI.call hands to requests.request (base.py 110). -/
structure PreparedRequest where
  http_method : String
  url : String
  params : Dict String
deriving DecidableEq

/-- SMAPI.call (base.py 101-114) up to the point of issuing the network
request: the URL is built first (line 106), then the auth parameters are
injected over the caller params (line 107).  An invalid service name errors
before any request exists. -/
def smapi_call (o : SMOptions) (srv_name method : String) (params : Dict String)
    (use_post : Bool) : Except PyExc PreparedRequest :=
  let http_method := if use_post then "POST" else "GET"
  match get_service_url o srv_name method with
  | .error e => .error e
  | .ok srv_url =>
    .ok ⟨http_method, srv_url,
         dUpdate params [("AuthUserName", o.username), ("AuthPassword", o.password)]⟩

/-! ### get_users (helpers.py 17-44) -/

/-- Exception classification by the except clauses of get_users: SMAPIError
(ZohoError is a subclass) versus any other exception. -/
def isSMAPIErrorExc : PyExc → Bool
  | .smapi _ => true
  | .zoho _ => true
  | _ => false

def excFailed {β : Type} : Except PyExc β → Bool
  | .error _ => true
  | .ok _ => false

/-- helpers.py 21-23: index the parsed userinfo field dicts by their username
field; a userinfo without username raises KeyError. -/
def buildUsers : List (Dict String) → Dict (Dict String) → Except PyExc (Dict (Dict String))
  | [], acc => .ok acc
  | info :: rest, acc =>
    match dget info "username" with
    | some uname => buildUsers rest (dset acc uname info)
    | none => .error (.keyError "username")

/-- helpers.py 28-42: the per-user detail loop.  get_user_fn abstracts the
get_user network call for one username.  The Python loop iterates the keys of
the users dict and updates each entry in place; this rebuilds the same mapping
in order.  An SMAPIError from get_user is reraised when require_extra_info,
else skipped; any other exception is wrapped into a new SMAPIError when
require_extra_info, else skipped. -/
def detailLoop (get_user_fn : String → Except PyExc (Dict String))
    (require_extra_info : Bool) : Dict (Dict String) → Except PyExc (Dict (Dict String))
  | [] => .ok []
  | (usr, info) :: rest =>
    match get_user_fn usr with
    | .ok extra =>
      match detailLoop get_user_fn require_extra_info rest with
      | .ok tail => .ok ((usr, dUpdate info extra) :: tail)
      | .error e2 => .error e2
    | .error e =>
      if isSMAPIErrorExc e then
        if require_extra_info then .error e
        else
          match detailLoop get_user_fn require_extra_info rest with
          | .ok tail => .ok ((usr, info) :: tail)
          | .error e2 => .error e2
      else
        if require_extra_info then
          .error (.smapi ("Unable to determine extra user info for " ++ usr))
        else
          match detailLoop get_user_fn require_extra_info rest with
          | .ok tail => .ok ((usr, info) :: tail)
          | .error e2 => .error e2

/-- get_users (helpers.py 17-44) over the already-parsed base listing (one field
dict per userinfo node).  requested_settings none or [] is falsy at line 25. -/
def get_users_model (base : List (Dict String)) (requested_settings : Option (List String))
    (require_extra_info : Bool) (get_user_fn : String → Except PyExc (Dict String)) :
    Except PyExc (Dict (Dict String)) :=
  match buildUsers base [] with
  | .error e => .error e
  | .ok users =>
    match requested_settings with
    | none => .ok users
    | some [] => .ok users
    | some _ => detailLoop get_user_fn require_extra_info users

/-! ### IMAP folder-line parsing (helpers.py 207-224) -/

/-- All start positions at which needle occurs in hay. -/
def occPositions (needle hay : List Char) : List Nat :=
  (List.range (hay.length + 1)).filter (fun i => lcStartsWith needle (hay.drop i))

/-- re.match of the pattern at helpers.py line 208 against a result line:
backslash-open-paren, lazy flags group, close-paren quote, greedy sep group,
quote space quote, greedy name group, quote.  Dots do not cross a newline, the
match is anchored at the start only.  The lazy flags group ends at the first
close-paren-space-quote; the greedy name group ends at the last quote; the
greedy sep group ends at the last quote-space-quote compatible with it. -/
def matchFolderLine (s : String) : Option (String × String × String) :=
  let cs := s.data.takeWhile (fun c => c != '\n')
  match cs with
  | '(' :: rest =>
    match (occPositions [')', ' ', '"'] rest).head? with
    | none => none
    | some i =>
      let flags := rest.take i
      let r := rest.drop (i + 3)
      match (occPositions ['"'] r).getLast? with
      | none => none
      | some qm =>
        match ((occPositions ['"', ' ', '"'] r).filter (fun k => k + 3 ≤ qm)).getLast? with
        | none => none
        | some k =>
          some (String.mk flags, String.mk (r.take k),
                String.mk ((r.drop (k + 3)).take (qm - (k + 3))))
  | _ => none

/-- IMAP_Connection.get_folders (helpers.py 207-224) over the result lines of
the LIST command: a non-matching line is skipped with a warning, matching
lines contribute their name group in order. -/
def get_folders_model (lines : List String) : List String :=
  lines.filterMap (fun l => (matchFolderLine l).map (fun x => x.2.2))

/-! ### ZohoAPI construction and the class-level _options dict (zoho.py) -/

/-- The class-level mutable dict at zoho.py line 31, shared by all ZohoAPI
instances; the email_id and token properties (lines 269-270) read it. -/
abbrev ZOpts := Dict (Option String)

def zoho_class_options : ZOpts :=
  [("email_id", none), ("token", none), ("org_id", none)]

/-- re.match on the anchored pattern of 32 chars in a-z0-9 (zoho.py 184). -/
def tokenShaped (t : String) : Bool :=
  t.length == 32 && t.data.all (fun c => c.isLower || c.isDigit)

inductive ZInitResult where
  | ok (opts : ZOpts)
  | needsFetch
  | raised (e : PyExc)

/-- ZohoAPI.__init__ (zoho.py 179-192) with fetch_token=False.  opts is the
shared class-level _options dict before construction; on success the result
carries the same shared dict after the update on line 192 (the update mutates
the class attribute in place, no instance attribute is ever created).  A token
not matching the token pattern sends the constructor into the network fetch
path, which is outside this model. -/
def zoho_init (opts : ZOpts) (token : String) (email_id : Option String)
    (scope_name : Option String) : ZInitResult :=
  match zoho_resolve_scope scope_name with
  | .error e => .raised e
  | .ok scope =>
    if !(tokenShaped token) then .needsFetch
    else
      .ok (dset (dset (dset opts "email_id" email_id) "token" (some token))
             "scope" (some scope))

/-- The email_id property (zoho.py 269): self._options.get with default None. -/
def zoho_email_id (opts : ZOpts) : Option String :=
  (dget opts "email_id").getD none

/-- The token property (zoho.py 270): self._options.get with default None. -/
def zoho_token (opts : ZOpts) : Option String :=
  (dget opts "token").getD none

/-! ### Attribute semantics of SMAPIError (exc.py 9-92) -/

/-- Python values stored in attributes of the exception objects. -/
inductive PyV where
  | vstr (s : String)
  | vnone
  | vdict (d : List (String × PyV))

/-- An exception object: its instance __dict__ and the data attributes of its
class (method resolution beyond one class level is not needed here). -/
structure PyExcObj where
  instAttrs : Dict PyV
  classAttrs : Dict PyV

/-- Python attribute lookup: instance __dict__ first, then the class attributes,
else AttributeError. -/
def getattrModel (o : PyExcObj) (name : String) : Except PyExc PyV :=
  match dget o.instAttrs name with
  | some v => .ok v
  | none =>
    match dget o.classAttrs name with
    | some v => .ok v
    | none => .error (.attributeError name)

/-- The class attributes of SMAPIError: the _values template of exc.py line 17.
No _options attribute is defined anywhere on SMAPIError. -/
def smapiErrorClassAttrs : Dict PyV :=
  [("_values", .vdict [("message", .vnone), ("base_ex", .vnone), ("dump_objs", .vnone)])]

/-- SMAPIError.__init__ (exc.py 19-32): stores message, base_ex and dump_objs
into self._values (an instance attribute shadowing the class template). -/
def smapiError_init (message : String) (base_ex dump_objs : PyV) : PyExcObj :=
  ⟨[("_values", .vdict [("message", .vstr message), ("base_ex", base_ex),
                        ("dump_objs", dump_objs)])],
   smapiErrorClassAttrs⟩

/-- The message property (exc.py 87): lambda self: self._options[chr(39)+...],
i.e. an indexing of self._options by the key message.  SMAPIError.__str__
(lines 71-72) returns self.message, so str(e) evaluates this too. -/
def smapiError_message (o : PyExcObj) : Except PyExc PyV :=
  match getattrModel o "_options" with
  | .error e => .error e
  | .ok (.vdict d) =>
    match dget d "message" with
    | some v => .ok v
    | none => .error (.keyError "message")
  | .ok _ => .error (.typeError "unsubscriptable object")

/-! ### Reduction and loop lemmas -/

theorem fetch_token_200_json (j : JValue) :
    fetch_token none 200 (.json j) = fetch_token_json_tier 200 j := rfl

theorem fetch_token_200_kv (content : String) :
    fetch_token none 200 (.kvText content) = fetch_token_kv_tier 200 content := rfl

/-- With require_extra_info=False the detail loop keeps every entry: a failing
lookup leaves the base entry, a successful one merges the extra fields. -/
theorem detailLoop_no_require (fn : String → Except PyExc (Dict String))
    (d : Dict (Dict String)) :
    detailLoop fn false d
      = .ok (d.map (fun kv =>
          (kv.1, match fn kv.1 with
                 | .ok extra => dUpdate kv.2 extra
                 | .error _ => kv.2))) := by
  induction d with
  | nil => rfl
  | cons head tail ih =>
    obtain ⟨usr, info⟩ := head
    cases hfn : fn usr with
    | ok extra => simp [detailLoop, hfn, ih]
    | error e =>
      cases hse : isSMAPIErrorExc e <;> simp [detailLoop, hfn, hse, ih]

/-- With require_extra_info=True the detail loop raises as soon as any entry
in the mapping has a failing lookup. -/
theorem detailLoop_require_error (fn : String → Except PyExc (Dict String))
    (d : Dict (Dict String)) (h : ∃ kv ∈ d, excFailed (fn kv.1) = true) :
    ∃ e, detailLoop fn true d = .error e := by
  induction d with
  | nil =>
    rcases h with ⟨kv, hmem, _⟩
    simp at hmem
  | cons head tail ih =>
    obtain ⟨usr, info⟩ := head
    cases hfn : fn usr with
    | error e =>
      cases hse : isSMAPIErrorExc e
      · exact ⟨.smapi ("Unable to determine extra user info for " ++ usr),
          by simp [detailLoop, hfn, hse]⟩
      · exact ⟨e, by simp [detailLoop, hfn, hse]⟩
    | ok extra =>
      have htail : ∃ kv ∈ tail, excFailed (fn kv.1) = true := by
        rcases h with ⟨kv, hmem, hf⟩
        rcases List.mem_cons.mp hmem with h1 | h2
        · rw [h1] at hf
          rw [hfn] at hf
          simp [excFailed] at hf
        · exact ⟨kv, h2, hf⟩
      rcases ih htail with ⟨e2, he2⟩
      exact ⟨e2, by simp [detailLoop, hfn, he2]⟩

/-! ### Claim theorems -/

/-- C1: of the claimed REST outcome table only the row (status 200, data
present) holds on the code.  For any 4xx/5xx response, bool(resp) is False, so
line 215 raises inside the try block and the except scan turns the resulting
TypeError into NameError: the code neither returns the data with a warning
(data present) nor raises a ZohoError (data absent).  At status 200 without
data, line 257 raises TypeError out of ZohoError.__init__ rather than a
ZohoError.  The soft warn-and-return path is reachable only for a non-2xx
status below 400, shown here at 302. -/
theorem call_zoho_outcome_table :
    call_zoho "GET" 200 (some (.jobj [("status", .jobj [("description", .jstr "OK")]),
        ("data", .jarr [.jstr "x"])]))
      = .ret (some (.jarr [.jstr "x"])) false
  ∧ call_zoho "GET" 500 (some (.jobj [("status", .jobj [("description", .jstr "Internal Error")]),
        ("data", .jarr [.jstr "x"])]))
      = .raised nameErrorRequestException
  ∧ call_zoho "GET" 500 (some (.jobj [("status", .jobj [("description", .jstr "Internal Error")])]))
      = .raised nameErrorRequestException
  ∧ call_zoho "GET" 200 (some (.jobj [("status", .jobj [("description", .jstr "OK")])]))
      = .raised (.typeError "argument of type NoneType is not iterable")
  ∧ call_zoho "GET" 302 (some (.jobj [("status", .jobj [("description", .jstr "Moved")]),
        ("data", .jarr [.jstr "x"])]))
      = .ret (some (.jarr [.jstr "x"])) true :=
  ⟨rfl, rfl, rfl, rfl, rfl⟩

/-- C2: token-response decoding is two-tier.  At status 200: a JSON body that
decodes to a field mapping with RESULT TRUE returns its AUTHTOKEN; a body that
fails JSON decoding and parses as KEY=VALUE lines to the same mapping returns
the same token through the fallback tier; in either tier a field mapping
without RESULT equal to TRUE raises a ZohoError carrying the HTTP response;
and the fallback line parser skips lines starting with a hash. -/
theorem fetch_token_two_tier (t content goodContent : String)
    (fs : List (String × JValue))
    (hjson : resultNotTrue fs = true)
    (hkv : kvResultNotTrue (dFromPairs (kvPairs content)) = true)
    (hgood : dFromPairs (kvPairs goodContent) = [("RESULT", "TRUE"), ("AUTHTOKEN", t)]) :
    fetch_token none 200 (.json (.jobj [("RESULT", .jstr "TRUE"), ("AUTHTOKEN", .jstr t)]))
      = .ok (some (.jstr t))
  ∧ fetch_token none 200 (.kvText goodContent) = .ok (some (.jstr t))
  ∧ (∃ msg, fetch_token none 200 (.json (.jobj fs)) = .error (.zoho ⟨msg, some 200⟩))
  ∧ (∃ msg, fetch_token none 200 (.kvText content) = .error (.zoho ⟨msg, some 200⟩))
  ∧ (∀ line, kvLineParse ('#' :: line) = none) := by
  refine ⟨rfl, ?_, ?_, ?_, fun line => rfl⟩
  · rw [fetch_token_200_kv]
    simp only [fetch_token_kv_tier]
    rw [hgood]
    rfl
  · rw [fetch_token_200_json]
    cases hempty : fs.isEmpty
    · exact ⟨"Invalid AUTHTOKEN response",
        by simp [fetch_token_json_tier, JValue.truthy, hempty, hjson, zoho_raise,
                 mkZohoError, optRespTruthy, respTruthy]⟩
    · exact ⟨"Unable to fetch API token, invalid response",
        by simp [fetch_token_json_tier, JValue.truthy, hempty, zoho_raise,
                 mkZohoError, optRespTruthy, respTruthy]⟩
  · rw [fetch_token_200_kv]
    simp only [fetch_token_kv_tier]
    cases hempty : (dFromPairs (kvPairs content)).isEmpty
    · exact ⟨"Invalid AUTHTOKEN response",
        by simp [hempty, hkv, zoho_raise, mkZohoError, optRespTruthy, respTruthy]⟩
    · exact ⟨"Unable to fetch API token, invalid response",
        by simp [hempty, zoho_raise, mkZohoError, optRespTruthy, respTruthy]⟩

/-- Witness for C2 at concrete inputs. -/
theorem fetch_token_two_tier_witness :
    resultNotTrue [("RESULT", JValue.jstr "FALSE")] = true
  ∧ kvResultNotTrue (dFromPairs (kvPairs "not a kv body")) = true
  ∧ dFromPairs (kvPairs "#comment\nRESULT=TRUE\nAUTHTOKEN=abc123")
      = [("RESULT", "TRUE"), ("AUTHTOKEN", "abc123")]
  ∧ fetch_token none 200 (.json (.jobj [("RESULT", .jstr "TRUE"), ("AUTHTOKEN", .jstr "abc123")]))
      = .ok (some (.jstr "abc123")) :=
  ⟨rfl, rfl, rfl,
   (fetch_token_two_tier "abc123" "not a kv body" "#comment\nRESULT=TRUE\nAUTHTOKEN=abc123"
      [("RESULT", JValue.jstr "FALSE")] rfl rfl rfl).1⟩

/-- C3: for a service name outside the whitelist, SMAPI.call fails before any
request is prepared, but with NameError (line 87 reads the unbound global
SERVICES), not an SMAPIError listing the valid service names. -/
theorem invalid_service_nameerror (o : SMOptions) (srv method : String)
    (params : Dict String) (use_post : Bool) (h : srv ∉ SERVICES) :
    smapi_call o srv method params use_post
      = .error (.nameError "global name SERVICES is not defined") := by
  simp [smapi_call, get_service_url, h]

/-- Witness for C3 at a concrete non-whitelisted service name. -/
theorem invalid_service_nameerror_witness :
    "BogusService" ∉ SERVICES
  ∧ smapi_call ⟨"mail.example.com", "admin", "pw", false, none⟩ "BogusService" "GetUser" [] false
      = .error (.nameError "global name SERVICES is not defined") :=
  ⟨by decide, invalid_service_nameerror _ _ _ _ _ (by decide)⟩

/-- C4: when either decoding tier succeeds with RESULT TRUE but no AUTHTOKEN
field, fetch_token returns None (lines 123/136 return ents.get with default
None; the raise at lines 144-147 is unreachable) instead of raising. -/
theorem fetch_token_missing_authtoken_returns_none :
    fetch_token none 200 (.json (.jobj [("RESULT", .jstr "TRUE")])) = .ok none
  ∧ fetch_token none 200 (.kvText "RESULT=TRUE") = .ok none :=
  ⟨rfl, rfl⟩

/-- C5 counterexample: the port string -5 is accepted by int() and stored, so
construction succeeds with a stored port that is not a positive integer. -/
theorem smapi_init_negative_port_cex :
    smapi_init "mail.example.com" "admin" "hunter2" false (some (.pstr "-5"))
      = .ok ⟨"mail.example.com", "admin", "hunter2", false, some (-5)⟩
  ∧ ¬(0 < (-5 : Int)) :=
  ⟨rfl, by decide⟩

/-- C5 amended: construction fails whenever server, username or password is
empty; a truthy port argument is int()-converted and the resulting integer of
any sign is stored, a conversion failure raising an SMAPIError naming the
port; a falsy or absent port is stored as None. -/
theorem smapi_init_port_behavior (server username password : String) (ssl : Bool)
    (p : PortArg) (hs : server ≠ "") (hu : username ≠ "")
    (hp : password ≠ "") :
    (∀ u pw ssl2 port2, smapi_init "" u pw ssl2 port2
        = .error (.smapi "No server hostname provided"))
  ∧ (∀ pw ssl2 port2, smapi_init server "" pw ssl2 port2
        = .error (.smapi "No username provided"))
  ∧ (∀ ssl2 port2, smapi_init server username "" ssl2 port2
        = .error (.smapi "No password provided"))
  ∧ (p.truthy = false →
      smapi_init server username password ssl (some p)
        = .ok ⟨server, username, password, ssl, none⟩)
  ∧ (∀ n, p.truthy = true → p.toIntOpt = some n →
      smapi_init server username password ssl (some p)
        = .ok ⟨server, username, password, ssl, some n⟩)
  ∧ (p.truthy = true → p.toIntOpt = none →
      smapi_init server username password ssl (some p)
        = .error (.smapi ("Invalid port provided: \"" ++ p.text ++ "\"")))
  ∧ smapi_init server username password ssl none
      = .ok ⟨server, username, password, ssl, none⟩ := by
  refine ⟨?_, ?_, ?_, ?_, ?_, ?_, ?_⟩
  · intro u pw ssl2 port2
    rfl
  · intro pw ssl2 port2
    simp [smapi_init, hs]
  · intro ssl2 port2
    simp [smapi_init, hs, hu]
  · intro ht
    simp [smapi_init, hs, hu, hp, ht]
  · intro n ht hn
    simp [smapi_init, hs, hu, hp, ht, hn]
  · intro ht hn
    simp [smapi_init, hs, hu, hp, ht, hn]
  · simp [smapi_init, hs, hu, hp]

/-- Witness for C5 at a concrete valid construction. -/
theorem smapi_init_port_behavior_witness :
    ("mail.example.com" : String) ≠ ""
  ∧ (PortArg.pstr "8080").truthy = true
  ∧ (PortArg.pstr "8080").toIntOpt = some 8080
  ∧ smapi_init "mail.example.com" "admin" "pw" false (some (.pstr "8080"))
      = .ok ⟨"mail.example.com", "admin", "pw", false, some 8080⟩ :=
  ⟨by decide, rfl, rfl,
   (smapi_init_port_behavior "mail.example.com" "admin" "pw" false (.pstr "8080")
      (by decide) (by decide) (by decide)).2.2.2.2.1 8080 rfl rfl⟩

/-- C6: with require_extra_info=False a per-user detail failure leaves every
user present, the failing user keeping its base-listing entry and the others
their merged entries; with require_extra_info=True any per-user detail failure
makes the whole batch raise. -/
theorem get_users_require_extra_info_policy (base : List (Dict String))
    (settings : List String) (users : Dict (Dict String))
    (fn : String → Except PyExc (Dict String))
    (hset : settings ≠ []) (hbuild : buildUsers base [] = .ok users) :
    get_users_model base (some settings) false fn
      = .ok (users.map (fun kv =>
          (kv.1, match fn kv.1 with
                 | .ok extra => dUpdate kv.2 extra
                 | .error _ => kv.2)))
  ∧ ((∃ kv ∈ users, excFailed (fn kv.1) = true) →
      ∃ e, get_users_model base (some settings) true fn = .error e) := by
  cases settings with
  | nil => exact absurd rfl hset
  | cons s ss =>
    constructor
    · simp [get_users_model, hbuild, detailLoop_no_require]
    · intro h
      rcases detailLoop_require_error fn users h with ⟨e, he⟩
      exact ⟨e, by simp [get_users_model, hbuild, he]⟩

/-- Witness for C6: two users, the detail lookup failing for alice; with the
strict flag set the batch raises. -/
theorem get_users_require_extra_info_policy_witness :
    (["password"] ≠ ([] : List String))
  ∧ buildUsers [[("username", "alice")], [("username", "bob")]] []
      = .ok [("alice", [("username", "alice")]), ("bob", [("username", "bob")])]
  ∧ (∃ e, get_users_model [[("username", "alice")], [("username", "bob")]]
      (some ["password"]) true
      (fun u => if u = "alice" then .error (.smapi "boom") else .ok [("password", "pw")])
      = .error e) :=
  ⟨by decide, rfl,
   (get_users_require_extra_info_policy
      [[("username", "alice")], [("username", "bob")]] ["password"]
      [("alice", [("username", "alice")]), ("bob", [("username", "bob")])]
      (fun u => if u = "alice" then .error (.smapi "boom") else .ok [("password", "pw")])
      (by decide) rfl).2
     ⟨("alice", [("username", "alice")]), by decide, by decide⟩⟩

/-- C7: the folder line with flags HasNoChildren, separator slash and quoted
name INBOX/Sent parses to that name; a line the pattern does not match
contributes nothing (no error), and matching lines keep their order. -/
theorem folder_line_parsing (pre post : List String) (l : String)
    (h : matchFolderLine l = none) :
    get_folders_model ["(\\HasNoChildren) \"/\" \"INBOX/Sent\""] = ["INBOX/Sent"]
  ∧ get_folders_model (pre ++ l :: post)
      = get_folders_model pre ++ get_folders_model post := by
  refine ⟨rfl, ?_⟩
  simp [get_folders_model, List.filterMap_append, h]

/-- Witness for C7 with a concrete unparsable line between two folder lines. -/
theorem folder_line_parsing_witness :
    matchFolderLine "garbage line" = none
  ∧ get_folders_model (["(\\A) \"/\" \"Drafts\""] ++ "garbage line" :: ["(\\B) \"/\" \"Sent\""])
      = get_folders_model ["(\\A) \"/\" \"Drafts\""] ++ get_folders_model ["(\\B) \"/\" \"Sent\""] :=
  ⟨rfl, (folder_line_parsing ["(\\A) \"/\" \"Drafts\""] ["(\\B) \"/\" \"Sent\""]
      "garbage line" rfl).2⟩

/-- C8 counterexample: _options is one class-level dict shared by every
ZohoAPI instance, and the email_id/token properties read it.  Constructing a
second client overwrites the dict, so the token read back after the second
construction is the second token, not the first. -/
theorem zoho_shared_options_cex :
    zoho_init zoho_class_options "aaaaaaaaaaaaaaaaaaaaaaaaaaaaaaaa"
        (some "first@example.com") none
      = .ok [("email_id", some "first@example.com"),
             ("token", some "aaaaaaaaaaaaaaaaaaaaaaaaaaaaaaaa"),
             ("org_id", none), ("scope", some "ZohoMail/ZohoMailAPI")]
  ∧ zoho_token [("email_id", some "first@example.com"),
                ("token", some "aaaaaaaaaaaaaaaaaaaaaaaaaaaaaaaa"),
                ("org_id", none), ("scope", some "ZohoMail/ZohoMailAPI")]
      = some "aaaaaaaaaaaaaaaaaaaaaaaaaaaaaaaa"
  ∧ zoho_init [("email_id", some "first@example.com"),
               ("token", some "aaaaaaaaaaaaaaaaaaaaaaaaaaaaaaaa"),
               ("org_id", none), ("scope", some "ZohoMail/ZohoMailAPI")]
        "bbbbbbbbbbbbbbbbbbbbbbbbbbbbbbbb" (some "second@example.com") none
      = .ok [("email_id", some "second@example.com"),
             ("token", some "bbbbbbbbbbbbbbbbbbbbbbbbbbbbbbbb"),
             ("org_id", none), ("scope", some "ZohoMail/ZohoMailAPI")]
  ∧ zoho_token [("email_id", some "second@example.com"),
                ("token", some "bbbbbbbbbbbbbbbbbbbbbbbbbbbbbbbb"),
                ("org_id", none), ("scope", some "ZohoMail/ZohoMailAPI")]
      ≠ some "aaaaaaaaaaaaaaaaaaaaaaaaaaaaaaaa"
  ∧ zoho_email_id [("email_id", some "second@example.com"),
                   ("token", some "bbbbbbbbbbbbbbbbbbbbbbbbbbbbbbbb"),
                   ("org_id", none), ("scope", some "ZohoMail/ZohoMailAPI")]
      ≠ some "first@example.com" :=
  ⟨rfl, rfl, rfl, by decide, by decide⟩

/-- C8 amended: every ZohoAPI construction (with a well-shaped token) writes
email_id, token and scope into the single shared class-level dict, whatever
its previous contents: the values any instance reads afterwards are those of
the most recent construction. -/
theorem zoho_init_overwrites_shared_options (opts : ZOpts) (tok : String)
    (em : Option String) (h : tokenShaped tok = true) :
    ∃ opts2, zoho_init opts tok em none = .ok opts2
      ∧ zoho_token opts2 = some tok ∧ zoho_email_id opts2 = em := by
  refine ⟨dset (dset (dset opts "email_id" em) "token" (some tok))
            "scope" (some "ZohoMail/ZohoMailAPI"), ?_, ?_, ?_⟩
  · simp [zoho_init, zoho_resolve_scope, h]
  · unfold zoho_token
    rw [dget_dset_other _ _ _ _ (by decide), dget_dset_same]
    rfl
  · unfold zoho_email_id
    rw [dget_dset_other _ _ _ _ (by decide), dget_dset_other _ _ _ _ (by decide),
        dget_dset_same]
    rfl

/-- Witness for C8 at a concrete token and email. -/
theorem zoho_init_overwrites_shared_options_witness :
    tokenShaped "cccccccccccccccccccccccccccccccc" = true
  ∧ ∃ opts2, zoho_init zoho_class_options "cccccccccccccccccccccccccccccccc"
        (some "third@example.com") none = .ok opts2
      ∧ zoho_token opts2 = some "cccccccccccccccccccccccccccccccc"
      ∧ zoho_email_id opts2 = some "third@example.com" :=
  ⟨by decide, zoho_init_overwrites_shared_options zoho_class_options
      "cccccccccccccccccccccccccccccccc" (some "third@example.com") (by decide)⟩

/-- C9: SMAPIError.__init__ stores the message into self._values (exc.py 32),
but the message property reads self._options (line 87), an attribute defined
nowhere on SMAPIError: the read, and hence str(e), raises AttributeError even
though the constructed value is present in _values. -/
theorem smapiError_message_read_fails :
    smapiError_message (smapiError_init "boom" .vnone .vnone)
      = .error (.attributeError "_options")
  ∧ dget (smapiError_init "boom" .vnone .vnone).instAttrs "_values"
      = some (.vdict [("message", .vstr "boom"), ("base_ex", .vnone),
                      ("dump_objs", .vnone)]) :=
  ⟨rfl, rfl⟩

/-- C10: constructing a ZohoError with dump_objs and http_response both absent
raises TypeError, because line 122 evaluates the membership test on the None
payload; hence every _log raise without exception_args escapes as TypeError
instead of a ZohoError.  With a truthy attached response the construction
succeeds, so the failure is specific to the absent payload. -/
theorem zohoError_init_none_payload :
    mkZohoError "No Zoho API Token Provided" none none
      = .error (.typeError "argument of type NoneType is not iterable")
  ∧ zoho_raise "Invalid HTTP method: FOO" none
      = .typeError "argument of type NoneType is not iterable"
  ∧ mkZohoError "HTTP Error" none (some 200) = .ok ⟨"HTTP Error", some 200⟩ :=
  ⟨rfl, rfl, rfl⟩

end Smapi
